import Mathlib

/-!
Verification of the LONIX social-media database core (the SQL migration
`Auto Configuration SQL Script`: tables, trigger functions and row-level
security policies), together with the sticker-store client operations
(`handlePurchase`, the sticker-pack creation submit) and the signup cascade
(`handle_new_user`).

The embedding is relational: each table is a list of row records, each SQL
function or trigger becomes a Lean function on the lists, and each row-level
security USING predicate becomes a boolean predicate over (caller, row).
SQL INTEGER columns are modelled as Int, DECIMAL(10,2) columns as ℚ,
TIMESTAMP columns as Int instants, and UUIDs as Nat identifiers.
-/

namespace Lonix

/-! ## Profiles and derived counters -/

/-- Row of `public.profiles` restricted to the columns the counter triggers
touch: `followers_count`, `following_count`, `posts_count` (INTEGER DEFAULT 0). -/
structure Profile where
  id : Nat
  followers_count : Int
  following_count : Int
  posts_count : Int
deriving Repr, DecidableEq

/-- The counter column names that `increment_counter` / `decrement_counter`
receive dynamically as the `column_name` argument. -/
inductive CounterCol where
  | followers
  | following
  | posts
deriving Repr, DecidableEq

def getCounter (p : Profile) : CounterCol → Int
  | .followers => p.followers_count
  | .following => p.following_count
  | .posts => p.posts_count

def setCounter (p : Profile) : CounterCol → Int → Profile
  | .followers, v => { p with followers_count := v }
  | .following, v => { p with following_count := v }
  | .posts, v => { p with posts_count := v }

/-- `increment_counter(table_name, column_name, id)`:
`UPDATE table SET col = col + 1 WHERE id = $1` (always called on `profiles`). -/
def increment_counter (profiles : List Profile) (c : CounterCol) (i : Nat) :
    List Profile :=
  profiles.map (fun p => if p.id = i then setCounter p c (getCounter p c + 1) else p)

/-- `decrement_counter(table_name, column_name, id)`:
`UPDATE table SET col = GREATEST(0, col - 1) WHERE id = $1`. -/
def decrement_counter (profiles : List Profile) (c : CounterCol) (i : Nat) :
    List Profile :=
  profiles.map
    (fun p => if p.id = i then setCounter p c (max 0 (getCounter p c - 1)) else p)

/-! ## Posts, likes, comments, follows -/

/-- Row of `public.posts` restricted to the columns relevant to engagement:
the four interaction counters (INTEGER DEFAULT 0) and
`engagement_score DECIMAL(10,2) DEFAULT 0.00`. -/
structure PostRow where
  id : Nat
  creator_id : Nat
  likes_count : Int
  comments_count : Int
  shares_count : Int
  saves_count : Int
  engagement_score : ℚ
deriving Repr, DecidableEq

/-- Row of `public.post_likes` (`UNIQUE(post_id, user_id)`). -/
structure LikeRow where
  post_id : Nat
  user_id : Nat
deriving Repr, DecidableEq

/-- Row of `public.comments` (no uniqueness constraint beside the primary key). -/
structure CommentRow where
  id : Nat
  post_id : Nat
  user_id : Nat
  parent_id : Option Nat
deriving Repr, DecidableEq

/-- Row of `public.follows` (`UNIQUE(follower_id, following_id)`). -/
structure FollowRow where
  follower_id : Nat
  following_id : Nat
deriving Repr, DecidableEq

/-- The slice of the database state that the counter and engagement triggers
read and write. -/
structure SocialDB where
  profiles : List Profile
  posts : List PostRow
  follows : List FollowRow
  post_likes : List LikeRow
  comments : List CommentRow
deriving Repr, DecidableEq

def findProfile (profiles : List Profile) (i : Nat) : Option Profile :=
  profiles.find? (fun p => p.id == i)

def findPost (posts : List PostRow) (i : Nat) : Option PostRow :=
  posts.find? (fun p => p.id == i)

/-- Number of `post_likes` rows currently referencing post `pid`
(the live Like row count). -/
def likeRowCount (db : SocialDB) (pid : Nat) : Nat :=
  (db.post_likes.filter (fun l => l.post_id == pid)).length

/-- Number of `comments` rows currently referencing post `pid`. -/
def commentRowCount (db : SocialDB) (pid : Nat) : Nat :=
  (db.comments.filter (fun c => c.post_id == pid)).length

/-- Stored `posts.likes_count` column of post `pid`. -/
def likesCountCol (db : SocialDB) (pid : Nat) : Option Int :=
  (findPost db.posts pid).map (fun p => p.likes_count)

/-- Stored `posts.engagement_score` column of post `pid`. -/
def engagementOf (db : SocialDB) (pid : Nat) : Option ℚ :=
  (findPost db.posts pid).map (fun p => p.engagement_score)

/-- `calculate_engagement_score(post_id)`: selects
`COALESCE(likes_count,0)*1.0 + COALESCE(comments_count,0)*3.0 +
COALESCE(shares_count,0)*5.0 + COALESCE(saves_count,0)*10.0` from the `posts`
row with that id; NULL (`none`) when no row matches. -/
def calculate_engagement_score (posts : List PostRow) (pid : Nat) : Option ℚ :=
  (findPost posts pid).map
    (fun p => (p.likes_count : ℚ) * 1 + (p.comments_count : ℚ) * 3 +
      (p.shares_count : ℚ) * 5 + (p.saves_count : ℚ) * 10)

/-- Body of the `update_engagement_score` trigger for one affected `post_id`:
`UPDATE posts SET engagement_score = calculate_engagement_score(pid) WHERE id = pid`.
When no `posts` row has id `pid`, neither the UPDATE nor the SELECT touches a
row and the table is unchanged. -/
def update_engagement_score (posts : List PostRow) (pid : Nat) : List PostRow :=
  match calculate_engagement_score posts pid with
  | some s => posts.map (fun p => if p.id = pid then { p with engagement_score := s } else p)
  | none => posts

/-- INSERT into `post_likes` as the database executes it: the foreign keys to
`posts` and `profiles` must resolve, the `UNIQUE(post_id, user_id)` constraint
rejects a duplicate (`none`), and the AFTER INSERT trigger
`update_post_engagement_after_like` runs `update_engagement_score` on the post. -/
def insertLike (db : SocialDB) (pid uid : Nat) : Option SocialDB :=
  if (findPost db.posts pid).isSome ∧ (findProfile db.profiles uid).isSome then
    if db.post_likes.any (fun l => l.post_id == pid && l.user_id == uid) then
      none
    else
      some { db with
        post_likes := db.post_likes ++ [⟨pid, uid⟩],
        posts := update_engagement_score db.posts pid }
  else none

/-- DELETE from `post_likes` matching `(post_id, user_id)`: removes the row if
present (by uniqueness at most one exists) and, per deleted row, the AFTER
DELETE trigger runs `update_engagement_score` on the post. Deleting an absent
row fires no trigger. -/
def deleteLike (db : SocialDB) (pid uid : Nat) : SocialDB :=
  if db.post_likes.any (fun l => l.post_id == pid && l.user_id == uid) then
    { db with
      post_likes := db.post_likes.filter
        (fun l => !(l.post_id == pid && l.user_id == uid)),
      posts := update_engagement_score db.posts pid }
  else db

/-- INSERT into `comments`: foreign keys to `posts` and `profiles` must
resolve; the AFTER INSERT trigger `update_post_engagement_after_comment` runs
`update_engagement_score` on the post. -/
def insertComment (db : SocialDB) (cid pid uid : Nat) (parent : Option Nat) :
    Option SocialDB :=
  if (findPost db.posts pid).isSome ∧ (findProfile db.profiles uid).isSome then
    some { db with
      comments := db.comments ++ [⟨cid, pid, uid, parent⟩],
      posts := update_engagement_score db.posts pid }
  else none

/-- INSERT into `follows` as the database executes it: both profile foreign
keys must resolve, `UNIQUE(follower_id, following_id)` rejects a duplicate
edge, and the AFTER INSERT trigger `update_follow_counts` increments
`following_count` of the follower and then `followers_count` of the followed. -/
def insertFollow (db : SocialDB) (a b : Nat) : Option SocialDB :=
  if (findProfile db.profiles a).isSome ∧ (findProfile db.profiles b).isSome then
    if db.follows.any (fun e => e.follower_id == a && e.following_id == b) then
      none
    else
      some { db with
        follows := db.follows ++ [⟨a, b⟩],
        profiles := increment_counter
          (increment_counter db.profiles CounterCol.following a)
          CounterCol.followers b }
  else none

/-- DELETE from `follows` matching `(follower_id, following_id)`: removes the
edge if present (at most one row by uniqueness) and, per deleted row, the
AFTER DELETE trigger `update_follow_counts` decrements (clamped at zero)
`following_count` of the follower and `followers_count` of the followed.
Deleting an absent edge fires no trigger and changes nothing. -/
def deleteFollow (db : SocialDB) (a b : Nat) : SocialDB :=
  if db.follows.any (fun e => e.follower_id == a && e.following_id == b) then
    { db with
      follows := db.follows.filter
        (fun e => !(e.follower_id == a && e.following_id == b)),
      profiles := decrement_counter
        (decrement_counter db.profiles CounterCol.following a)
        CounterCol.followers b }
  else db

/-- `followers_count` of profile `i` as stored. -/
def followersOf (db : SocialDB) (i : Nat) : Option Int :=
  (findProfile db.profiles i).map (fun p => p.followers_count)

/-- `following_count` of profile `i` as stored. -/
def followingOf (db : SocialDB) (i : Nat) : Option Int :=
  (findProfile db.profiles i).map (fun p => p.following_count)

/-- Engagement score as the specification document words it: the weighted sum
`likes(p)*1 + comments(p)*3 + shares(p)*5 + saves(p)*10` where `likes(p)` and
`comments(p)` are the live counts of Like and Comment rows referencing `p`
(shares and saves taken from the stored columns, the only representation the
schema has for them). Stated from the spec's words, to be compared with the
stored `engagement_score` the code maintains. -/
def specEngagementScore (db : SocialDB) (pid : Nat) : Option ℚ :=
  (findPost db.posts pid).map
    (fun p => (likeRowCount db pid : ℚ) * 1 + (commentRowCount db pid : ℚ) * 3 +
      (p.shares_count : ℚ) * 5 + (p.saves_count : ℚ) * 10)

/-! ## Ephemeral content ("The Void") -/

/-- Row of `public.ephemeral_content` restricted to the columns the visibility
policy and the cleanup sweep read. -/
structure EphemeralRow where
  id : Nat
  creator_id : Nat
  expires_at : Int
deriving Repr, DecidableEq

/-- SELECT on `ephemeral_content` under the row-level security policy
`Ephemeral content is viewable by everyone ... USING (expires_at > NOW())`:
the rows any reader obtains at instant `now`. -/
def ephemeralVisible (rows : List EphemeralRow) (now : Int) : List EphemeralRow :=
  rows.filter (fun e => now < e.expires_at)

/-- The periodic cleanup sweep
`DELETE FROM public.ephemeral_content WHERE expires_at < NOW()`
executed at instant `t`. -/
def cleanupEphemeral (rows : List EphemeralRow) (t : Int) : List EphemeralRow :=
  rows.filter (fun e => !(e.expires_at < t))

/-! ## Conversations and messages -/

/-- Row of `public.conversation_participants`
(`UNIQUE(conversation_id, user_id)`, `left_at` nullable). -/
structure ParticipantRow where
  conversation_id : Nat
  user_id : Nat
  left_at : Option Int
deriving Repr, DecidableEq

/-- Row of `public.messages` restricted to the columns the read policy uses. -/
structure MessageRow where
  id : Nat
  conversation_id : Nat
  sender_id : Nat
deriving Repr, DecidableEq

/-- SELECT policy `Users can view messages in their conversations`:
`EXISTS (SELECT 1 FROM conversation_participants WHERE conversation_id =
messages.conversation_id AND user_id = auth.uid() AND left_at IS NULL)`. -/
def canViewMessage (participants : List ParticipantRow) (uid : Nat)
    (m : MessageRow) : Bool :=
  participants.any (fun p =>
    p.conversation_id == m.conversation_id && p.user_id == uid &&
      p.left_at == none)

/-! ## Sticker commerce -/

/-- Row of `public.sticker_packs` restricted to the columns the creation form
and the listing policy use (`price DECIMAL(10,2) DEFAULT 0.00`,
`is_public BOOLEAN DEFAULT FALSE`, `is_approved BOOLEAN DEFAULT FALSE`). -/
structure StickerPackRow where
  creator_id : Nat
  price : ℚ
  is_public : Bool
  is_approved : Bool
deriving Repr, DecidableEq

/-- Numeric value of a digit string read left to right. -/
def digitsVal (cs : List Char) : Nat :=
  cs.foldl (fun a c => a * 10 + (c.toNat - 48)) 0

/-- Splits a character list into its longest digit prefix and the rest. -/
def takeDigits : List Char → List Char × List Char
  | [] => ([], [])
  | c :: cs =>
    if c.isDigit then
      let (d, r) := takeDigits cs
      (c :: d, r)
    else ([], c :: cs)

/-- Models JavaScript `Number.parseFloat` on the strings an HTML number input
produces: a leading run of digits, optionally a dot and a second run of
digits, anything after that ignored; `none` stands for `NaN` (no leading
digit and no fraction digit). Sign prefixes and exponents are outside the
modelled input space. -/
def parseFloatQ (s : String) : Option ℚ :=
  let (i, rest) := takeDigits s.toList
  let f : List Char :=
    match rest with
    | c :: cs => if c = Char.ofNat 46 then (takeDigits cs).1 else []
    | [] => []
  if i.isEmpty ∧ f.isEmpty then none
  else some ((digitsVal i : ℚ) + (digitsVal f : ℚ) / 10 ^ f.length)

/-- `parseFloat(price) || 0` from the pack-creation submit: `NaN` falls back
to `0` (and a parsed `0`, being falsy, also yields `0`). -/
def parseFloatOrZero (s : String) : ℚ :=
  (parseFloatQ s).getD 0

/-- The `sticker_packs` row the creation form's submit handler inserts:
`price: parseFloat(price) || 0`, `is_public: isPublic`,
`is_approved: price === "0"` where `price` is the raw text of the price input. -/
def handleSubmitPack (creator : Nat) (priceInput : String) (isPublic : Bool) :
    StickerPackRow :=
  { creator_id := creator,
    price := parseFloatOrZero priceInput,
    is_public := isPublic,
    is_approved := priceInput == "0" }

/-- SELECT policy `Anyone can view approved public sticker packs ...
USING (is_public = TRUE AND is_approved = TRUE)` — whether the pack is
publicly listable (the creator additionally sees their own packs through a
separate policy). -/
def packPubliclyListable (k : StickerPackRow) : Bool :=
  k.is_public && k.is_approved

/-- Row of `public.user_purchases`. Beside the synthetic `id` primary key the
table declares no uniqueness constraint, in particular none on
`(user_id, pack_id)`. -/
structure PurchaseRow where
  user_id : Nat
  pack_id : Nat
  amount : ℚ
  payment_id : Option String
deriving Repr, DecidableEq

/-- INSERT into `user_purchases`: with no applicable uniqueness constraint the
insert always succeeds and appends the row. -/
def insertPurchase (purchases : List PurchaseRow) (r : PurchaseRow) :
    List PurchaseRow :=
  purchases ++ [r]

/-- Number of `user_purchases` rows for a given `(user_id, pack_id)` pair. -/
def purchaseCountFor (purchases : List PurchaseRow) (uid k : Nat) : Nat :=
  (purchases.filter (fun r => r.user_id == uid && r.pack_id == k)).length

/-- The pack as the sticker-store page sees it: its id, price, and the
client-computed ownership flag. -/
structure StorePack where
  id : Nat
  price : ℚ
  is_owned : Bool
deriving Repr, DecidableEq

/-- Outcome of the store page's purchase button. -/
inductive PurchaseAction where
  | loginRedirect
  | alreadyOwned
  | freeClaim (row : PurchaseRow)
  | checkout (pack_id : Nat) (user_id : Nat)
deriving Repr, DecidableEq

/-- `handlePurchase` from the sticker-store page: unauthenticated users are
sent to login; an owned pack is a no-op; a pack with `price === 0` directly
inserts a `user_purchases` row `{amount: 0, payment_id: "free_download"}`
with no payment handshake; otherwise the page starts the external
`sticker-checkout` handshake and inserts nothing itself. -/
def handlePurchase (user : Option Nat) (pack : StorePack) : PurchaseAction :=
  match user with
  | none => .loginRedirect
  | some uid =>
    if pack.is_owned then .alreadyOwned
    else if pack.price = 0 then
      .freeClaim { user_id := uid, pack_id := pack.id, amount := 0,
                   payment_id := some "free_download" }
    else .checkout pack.id uid

/-- Modelled from the spec: access to a pack's contents for an identity
(the `useStickers` ownership hook and the pack detail page are not among the
sources). Spec §4.4: access is granted iff `price == 0` or a Purchase record
exists for the (identity, pack) pair. -/
def hasAccess (purchases : List PurchaseRow) (uid : Nat) (pack : StorePack) :
    Bool :=
  pack.price == 0 ||
    purchases.any (fun r => r.user_id == uid && r.pack_id == pack.id)

/-! ## Signup cascade -/

/-- Row of `auth.users` restricted to what `handle_new_user` reads:
the id and the `raw_user_meta_data` fields it extracts. -/
structure AuthUser where
  id : Nat
  meta_username : Option String
  meta_display_name : Option String
deriving Repr, DecidableEq

/-- Row of `public.profiles` as inserted by the signup cascade. -/
structure NewProfileRow where
  id : Nat
  username : Option String
  display_name : Option String
deriving Repr, DecidableEq

/-- Row of `public.user_roles` (`role` constrained to
'user' / 'moderator' / 'admin'). -/
structure RoleRow where
  user_id : Nat
  role : String
deriving Repr, DecidableEq

/-- Row of the `user_settings` table (earlier migration); the cascade-relevant
content is only which user a settings row belongs to. -/
structure SettingsRow where
  user_id : Nat
deriving Repr, DecidableEq

/-- The tables the signup cascade could touch. -/
structure AccountDB where
  profiles : List NewProfileRow
  user_roles : List RoleRow
  user_settings : List SettingsRow
deriving Repr, DecidableEq

/-- `handle_new_user()`, fired AFTER INSERT ON `auth.users`: inserts a
`profiles` row from the signup metadata and a `user_roles` row with role
'user'. It touches no other table. -/
def handle_new_user (db : AccountDB) (u : AuthUser) : AccountDB :=
  { profiles := db.profiles ++
      [{ id := u.id, username := u.meta_username,
         display_name := u.meta_display_name }],
    user_roles := db.user_roles ++ [{ user_id := u.id, role := "user" }],
    user_settings := db.user_settings }

/-! ## Concrete states used by the counterexample and failing-input theorems -/

/-- A fresh state: one profile (id 1) and one post (id 10, creator 1) with all
counters at their column defaults (0) and no interaction rows. -/
def exDB0 : SocialDB :=
  { profiles := [{ id := 1, followers_count := 0, following_count := 0,
                   posts_count := 0 }],
    posts := [{ id := 10, creator_id := 1, likes_count := 0,
                comments_count := 0, shares_count := 0, saves_count := 0,
                engagement_score := 0 }],
    follows := [],
    post_likes := [],
    comments := [] }

/-- The state after user 1 likes post 10 in `exDB0`. -/
def exDB1 : SocialDB :=
  (insertLike exDB0 10 1).getD exDB0

/-- A state with two fresh profiles and no edges, used to instantiate the
follow-counter theorem. -/
def exFollowDB : SocialDB :=
  { profiles := [{ id := 1, followers_count := 0, following_count := 0,
                   posts_count := 0 },
                 { id := 2, followers_count := 0, following_count := 0,
                   posts_count := 0 }],
    posts := [], follows := [], post_likes := [], comments := [] }

end Lonix

namespace Lonix

/-! ## Helper lemmas -/

/-- find? commutes with mapping a function that does not change the
predicate's verdict. -/
theorem find?_map_congr {α : Type} (g : α → α) (q : α → Bool)
    (hq : ∀ x, q (g x) = q x) :
    ∀ l : List α, (l.map g).find? q = (l.find? q).map g := by
  intro l
  have h : q ∘ g = q := funext hq
  rw [List.find?_map, h]

/-- Writing a counter column never changes a profile's id. -/
theorem setCounter_id (p : Profile) (c : CounterCol) (v : Int) :
    (setCounter p c v).id = p.id := by
  cases c <;> rfl

/-- Reading back the counter column just written yields the written value. -/
theorem getCounter_setCounter (p : Profile) (c : CounterCol) (v : Int) :
    getCounter (setCounter p c v) c = v := by
  cases c <;> rfl

/-- Profile lookup after `increment_counter` is the lookup before it with the
counter update applied to the found row. -/
theorem findProfile_increment_counter (l : List Profile) (c : CounterCol)
    (i j : Nat) :
    findProfile (increment_counter l c i) j =
      (findProfile l j).map
        (fun p => if p.id = i then setCounter p c (getCounter p c + 1)
          else p) := by
  unfold findProfile increment_counter
  exact find?_map_congr _ _
    (fun x => by by_cases h : x.id = i <;> simp [h, setCounter_id]) l

/-- Profile lookup after `decrement_counter` is the lookup before it with the
clamped counter update applied to the found row. -/
theorem findProfile_decrement_counter (l : List Profile) (c : CounterCol)
    (i j : Nat) :
    findProfile (decrement_counter l c i) j =
      (findProfile l j).map
        (fun p => if p.id = i then setCounter p c (max 0 (getCounter p c - 1))
          else p) := by
  unfold findProfile decrement_counter
  exact find?_map_congr _ _
    (fun x => by by_cases h : x.id = i <;> simp [h, setCounter_id]) l

/-- The engagement-score trigger touches neither the existence of a post row
nor its `likes_count` column. -/
theorem update_engagement_preserves (posts : List PostRow) (pid j : Nat) :
    (findPost (update_engagement_score posts pid) j).isSome
        = (findPost posts j).isSome ∧
    ((findPost (update_engagement_score posts pid) j).map
        fun p => p.likes_count)
      = ((findPost posts j).map fun p => p.likes_count) := by
  unfold update_engagement_score
  cases hcalc : calculate_engagement_score posts pid with
  | none => exact ⟨rfl, rfl⟩
  | some s =>
    have hfind := find?_map_congr
      (fun p => if p.id = pid then { p with engagement_score := s } else p)
      (fun p => p.id == j)
      (fun x => by by_cases h : x.id = pid <;> simp [h]) posts
    unfold findPost
    rw [hfind]
    constructor
    · cases posts.find? (fun p => p.id == j) <;> rfl
    · rw [Option.map_map]
      congr 1
      funext p
      by_cases h : p.id = pid <;> simp [h]

/-! ## Theorems -/

/-- C1: after a Like insert on post p the trigger recomputes
`engagement_score` from the stored counter columns, which no trigger updates;
the score therefore does not equal the weighted sum over the live Like and
Comment rows. On a fresh post, one Like insert leaves the score at 0 while
the spec formula gives 1. -/
theorem engagement_score_ignores_live_rows :
    insertLike exDB0 10 1 = some exDB1 ∧
    likeRowCount exDB1 10 = 1 ∧
    engagementOf exDB1 10 = some 0 ∧
    specEngagementScore exDB1 10 = some 1 ∧
    engagementOf exDB1 10 ≠ specEngagementScore exDB1 10 := by
  have h0 : engagementOf exDB1 10 = some 0 := by
    simp [engagementOf, exDB1, exDB0, insertLike, findPost, findProfile,
      update_engagement_score, calculate_engagement_score, List.find?]
  have h1 : specEngagementScore exDB1 10 = some 1 := by
    simp [specEngagementScore, exDB1, exDB0, insertLike, findPost, findProfile,
      update_engagement_score, calculate_engagement_score, likeRowCount,
      commentRowCount, List.find?]
  refine ⟨rfl, by decide, h0, h1, ?_⟩
  rw [h0, h1]
  intro hc
  exact absurd (Option.some.inj hc) (by norm_num)

/-- C2: the schema has no trigger maintaining `posts.likes_count` (or
`posts.comments_count`): after inserting one Like row on post 10 the live row
count is 1 but the stored counter is still 0, so the counters-equal-rows
invariant fails. -/
theorem likes_counter_not_maintained :
    likeRowCount exDB1 10 = 1 ∧ likesCountCol exDB1 10 = some 0 := by
  decide

/-- C4 counterexample: the second Like by the same (user, post) pair is
rejected and no second row appears, but the post's likes counter was never
incremented by the first Like — it is 0, not "incremented exactly once". -/
theorem duplicate_like_counter_counterexample :
    insertLike exDB0 10 1 = some exDB1 ∧
    insertLike exDB1 10 1 = none ∧
    likeRowCount exDB1 10 = 1 ∧
    likesCountCol exDB1 10 = some 0 ∧
    likesCountCol exDB1 10 ≠ some 1 := by
  exact ⟨rfl, by decide, by decide, by decide, by decide⟩

/-- C7: auto-approval of a new sticker pack compares the raw price input
string with "0" while the stored price is the parsed number: the input
"0.00" creates a pack with price 0 that is not approved (and hence not
publicly listable), contradicting free-pack auto-approval; the inputs "0"
and "5" behave as documented. -/
theorem free_pack_approval_string_bug :
    (handleSubmitPack 1 "0.00" true).price = 0 ∧
    (handleSubmitPack 1 "0.00" true).is_approved = false ∧
    packPubliclyListable (handleSubmitPack 1 "0.00" true) = false ∧
    (handleSubmitPack 1 "0" true).price = 0 ∧
    (handleSubmitPack 1 "0" true).is_approved = true ∧
    (handleSubmitPack 1 "5" true).price = 5 ∧
    (handleSubmitPack 1 "5" true).is_approved = false := by
  refine ⟨?_, by decide, by decide, ?_, by decide, ?_, by decide⟩
  · rw [show (handleSubmitPack 1 "0.00" true).price
        = ((0 : Nat) : ℚ) + ((0 : Nat) : ℚ) / 10 ^ 2 from rfl]
    norm_num
  · rw [show (handleSubmitPack 1 "0" true).price
        = ((0 : Nat) : ℚ) + ((0 : Nat) : ℚ) / 10 ^ 0 from rfl]
    norm_num
  · rw [show (handleSubmitPack 1 "5" true).price
        = ((5 : Nat) : ℚ) + ((0 : Nat) : ℚ) / 10 ^ 0 from rfl]
    norm_num

/-- C9 counterexample: the signup cascade `handle_new_user` inserts a profile
row and a base 'user' role for the new account, but no settings row: the
`user_settings` table stays empty. -/
theorem signup_no_settings_counterexample :
    (∃ p ∈ (handle_new_user ⟨[], [], []⟩ ⟨7, some "u7", some "U7"⟩).profiles,
        p.id = 7) ∧
    (∃ r ∈ (handle_new_user ⟨[], [], []⟩ ⟨7, some "u7", some "U7"⟩).user_roles,
        r.user_id = 7 ∧ r.role = "user") ∧
    ¬ ∃ s ∈ (handle_new_user ⟨[], [], []⟩ ⟨7, some "u7", some "U7"⟩).user_settings,
        s.user_id = 7 := by
  decide

/-- C9 (amended): on first signup the cascade creates a default Identity
(profile) row from the signup metadata and a base role assignment ('user'),
and leaves the settings table untouched. -/
theorem signup_cascade_effect (db : AccountDB) (u : AuthUser) :
    (∃ p ∈ (handle_new_user db u).profiles,
        p.id = u.id ∧ p.username = u.meta_username ∧
          p.display_name = u.meta_display_name) ∧
    (∃ r ∈ (handle_new_user db u).user_roles,
        r.user_id = u.id ∧ r.role = "user") ∧
    (handle_new_user db u).user_settings = db.user_settings := by
  refine ⟨⟨{ id := u.id, username := u.meta_username,
             display_name := u.meta_display_name }, ?_, rfl, rfl, rfl⟩,
          ⟨{ user_id := u.id, role := "user" }, ?_, rfl, rfl⟩, rfl⟩ <;>
    simp [handle_new_user]

/-- C5: an ephemeral post is returned by a read at instant `now` exactly when
it is stored and `now < expires_at`, and this is unchanged by whether the
periodic cleanup sweep already ran (at any instant `t ≤ now`): visibility is
governed by the policy predicate, not by physical deletion. -/
theorem ephemeral_visibility_window (rows : List EphemeralRow)
    (e : EphemeralRow) (now t : Int) (hsweep : t ≤ now) :
    (e ∈ ephemeralVisible rows now ↔ e ∈ rows ∧ now < e.expires_at) ∧
    (e ∈ ephemeralVisible (cleanupEphemeral rows t) now ↔
      e ∈ rows ∧ now < e.expires_at) := by
  constructor
  · simp [ephemeralVisible, List.mem_filter]
  · simp only [ephemeralVisible, cleanupEphemeral, List.mem_filter,
      Bool.not_eq_true', decide_eq_true_eq, decide_eq_false_iff_not, not_lt]
    constructor
    · rintro ⟨⟨h1, h2⟩, h3⟩
      exact ⟨h1, h3⟩
    · rintro ⟨h1, h3⟩
      exact ⟨⟨h1, by omega⟩, h3⟩

/-- Witness for `ephemeral_visibility_window`: one stored ephemeral post
expiring at 100, read at 50 after a sweep at 40. -/
theorem ephemeral_visibility_window_witness :
    ((⟨1, 1, 100⟩ : EphemeralRow) ∈ ephemeralVisible [⟨1, 1, 100⟩] 50 ↔
      (⟨1, 1, 100⟩ : EphemeralRow) ∈ ([⟨1, 1, 100⟩] : List EphemeralRow) ∧
        (50 : Int) < (⟨1, 1, 100⟩ : EphemeralRow).expires_at) ∧
    ((⟨1, 1, 100⟩ : EphemeralRow) ∈
        ephemeralVisible (cleanupEphemeral [⟨1, 1, 100⟩] 40) 50 ↔
      (⟨1, 1, 100⟩ : EphemeralRow) ∈ ([⟨1, 1, 100⟩] : List EphemeralRow) ∧
        (50 : Int) < (⟨1, 1, 100⟩ : EphemeralRow).expires_at) :=
  ephemeral_visibility_window [⟨1, 1, 100⟩] ⟨1, 1, 100⟩ 50 40 (by decide)

/-- C6: the message read policy holds exactly when some
`conversation_participants` row ties the reader to the message's conversation
with `left_at IS NULL`; an identity all of whose participant rows for that
conversation record a departure cannot read its messages. -/
theorem message_visibility (parts : List ParticipantRow) (uid : Nat)
    (m : MessageRow) :
    (canViewMessage parts uid m = true ↔
      ∃ p ∈ parts, p.conversation_id = m.conversation_id ∧
        p.user_id = uid ∧ p.left_at = none) ∧
    ((∀ p ∈ parts, p.conversation_id = m.conversation_id →
        p.user_id = uid → p.left_at ≠ none) →
      canViewMessage parts uid m = false) := by
  have hiff : canViewMessage parts uid m = true ↔
      ∃ p ∈ parts, p.conversation_id = m.conversation_id ∧
        p.user_id = uid ∧ p.left_at = none := by
    simp [canViewMessage, List.any_eq_true, Bool.and_eq_true, beq_iff_eq,
      and_assoc]
  refine ⟨hiff, fun h => ?_⟩
  by_contra hc
  rcases hiff.mp (by simpa using Bool.of_not_eq_false hc) with ⟨p, hp, h1, h2, h3⟩
  exact h p hp h1 h2 h3

/-- Witness for `message_visibility`: user 2 left conversation 3 at instant 5
and cannot read its message 9. -/
theorem message_visibility_witness :
    (canViewMessage [⟨3, 2, some 5⟩] 2 ⟨9, 3, 1⟩ = true ↔
      ∃ p ∈ ([⟨3, 2, some 5⟩] : List ParticipantRow),
        p.conversation_id = (⟨9, 3, 1⟩ : MessageRow).conversation_id ∧
          p.user_id = 2 ∧ p.left_at = none) ∧
    canViewMessage [⟨3, 2, some 5⟩] 2 ⟨9, 3, 1⟩ = false :=
  ⟨(message_visibility [⟨3, 2, some 5⟩] 2 ⟨9, 3, 1⟩).1,
   (message_visibility [⟨3, 2, some 5⟩] 2 ⟨9, 3, 1⟩).2 (by decide)⟩

/-- C8: for a free pack (price 0) not yet owned, the purchase handler
directly records a zero-amount `user_purchases` row with the sentinel payment
id and access holds with no payment handshake; for a paid pack, access holds
exactly when a `user_purchases` row exists for the (identity, pack) pair, the
handler only starts the external checkout, and access becomes true once a
Purchase row for the pair is inserted. -/
theorem commerce_access_gating (purchases : List PurchaseRow) (uid : Nat)
    (pack : StorePack) :
    (pack.price = 0 → pack.is_owned = false →
      handlePurchase (some uid) pack =
        .freeClaim { user_id := uid, pack_id := pack.id, amount := 0,
                     payment_id := some "free_download" } ∧
      hasAccess purchases uid pack = true) ∧
    (pack.price ≠ 0 →
      (hasAccess purchases uid pack = true ↔
        ∃ r ∈ purchases, r.user_id = uid ∧ r.pack_id = pack.id) ∧
      (pack.is_owned = false →
        handlePurchase (some uid) pack = .checkout pack.id uid) ∧
      (∀ r : PurchaseRow, r.user_id = uid → r.pack_id = pack.id →
        hasAccess (insertPurchase purchases r) uid pack = true)) := by
  constructor
  · intro h0 hown
    constructor
    · simp [handlePurchase, hown, h0]
    · simp [hasAccess, h0]
  · intro hne
    refine ⟨?_, fun hown => ?_, fun r hr1 hr2 => ?_⟩
    · simp [hasAccess, hne, List.any_eq_true, Bool.and_eq_true, beq_iff_eq]
    · simp [handlePurchase, hown, hne]
    · simp [hasAccess, insertPurchase, List.any_eq_true, Bool.and_eq_true,
        beq_iff_eq]
      tauto

/-- Witness for `commerce_access_gating`: free pack 7 and paid pack 8 (price
5), user 1, empty purchase table, then one purchase row for pack 8. -/
theorem commerce_access_gating_witness :
    (handlePurchase (some 1) ⟨7, 0, false⟩ =
        .freeClaim { user_id := 1, pack_id := (⟨7, 0, false⟩ : StorePack).id,
                     amount := 0, payment_id := some "free_download" } ∧
      hasAccess [] 1 ⟨7, 0, false⟩ = true) ∧
    (hasAccess [] 1 ⟨8, 5, false⟩ = true ↔
      ∃ r ∈ ([] : List PurchaseRow),
        r.user_id = 1 ∧ r.pack_id = (⟨8, 5, false⟩ : StorePack).id) ∧
    handlePurchase (some 1) ⟨8, 5, false⟩ =
      .checkout (⟨8, 5, false⟩ : StorePack).id 1 ∧
    hasAccess (insertPurchase [] ⟨1, 8, 5, some "pay"⟩) 1 ⟨8, 5, false⟩ =
      true :=
  ⟨(commerce_access_gating [] 1 ⟨7, 0, false⟩).1 rfl rfl,
   ((commerce_access_gating [] 1 ⟨8, 5, false⟩).2 (by norm_num)).1,
   ((commerce_access_gating [] 1 ⟨8, 5, false⟩).2 (by norm_num)).2.1 rfl,
   ((commerce_access_gating [] 1 ⟨8, 5, false⟩).2 (by norm_num)).2.2
     ⟨1, 8, 5, some "pay"⟩ rfl rfl⟩

/-- C10: `user_purchases` carries no uniqueness on (user_id, pack_id), so the
zero-amount row the free-claim path produces can be inserted repeatedly; two
claims by the same user for the same pack leave two Purchase rows for the
pair. -/
theorem duplicate_free_purchases (purchases : List PurchaseRow) (uid : Nat)
    (pack : StorePack) (hfree : pack.price = 0) (hown : pack.is_owned = false) :
    ∃ r, handlePurchase (some uid) pack = .freeClaim r ∧
      r.user_id = uid ∧ r.pack_id = pack.id ∧ r.amount = 0 ∧
      r.payment_id = some "free_download" ∧
      purchaseCountFor (insertPurchase (insertPurchase purchases r) r)
          uid pack.id =
        purchaseCountFor purchases uid pack.id + 2 := by
  refine ⟨{ user_id := uid, pack_id := pack.id, amount := 0,
            payment_id := some "free_download" },
    by simp [handlePurchase, hown, hfree], rfl, rfl, rfl, rfl, ?_⟩
  simp [insertPurchase, purchaseCountFor, List.filter_append]

/-- C3: inserting the follow edge (a, b) increments a's following count and
b's followers count by exactly one; deleting the edge restores both prior
values; a second deletion of the same edge is a no-op; and a clamped
decrement can never drive a counter below zero. -/
theorem follow_counter_roundtrip (db : SocialDB) (a b : Nat) (pa pb : Profile)
    (ha : findProfile db.profiles a = some pa)
    (hb : findProfile db.profiles b = some pb)
    (hfa : 0 ≤ pa.following_count) (hfb : 0 ≤ pb.followers_count)
    (hnew : db.follows.any
      (fun e => e.follower_id == a && e.following_id == b) = false) :
    ∃ db1, insertFollow db a b = some db1 ∧
      followingOf db1 a = some (pa.following_count + 1) ∧
      followersOf db1 b = some (pb.followers_count + 1) ∧
      followingOf (deleteFollow db1 a b) a = some pa.following_count ∧
      followersOf (deleteFollow db1 a b) b = some pb.followers_count ∧
      deleteFollow (deleteFollow db1 a b) a b = deleteFollow db1 a b ∧
      (∀ (l : List Profile) (c : CounterCol) (i : Nat),
        ∀ q ∈ decrement_counter l c i, q.id = i → 0 ≤ getCounter q c) := by
  have haid : pa.id = a := by
    have h1 := List.find?_some ha
    simpa using h1
  have hbid : pb.id = b := by
    have h1 := List.find?_some hb
    simpa using h1
  have hany : ((db.follows ++ [⟨a, b⟩] : List FollowRow).any
      (fun e => e.follower_id == a && e.following_id == b)) = true := by
    simp
  have hfilter : (db.follows ++ [⟨a, b⟩] : List FollowRow).filter
      (fun e => !(e.follower_id == a && e.following_id == b)) = db.follows := by
    rw [List.filter_append]
    have hev := List.any_eq_false.mp hnew
    have h1 : db.follows.filter
        (fun e => !(e.follower_id == a && e.following_id == b))
          = db.follows := by
      apply List.filter_eq_self.mpr
      intro e he
      rw [Bool.not_eq_true']
      exact Bool.eq_false_iff.mpr (hev e he)
    have h2 : ([⟨a, b⟩] : List FollowRow).filter
        (fun e => !(e.follower_id == a && e.following_id == b)) = [] := by
      simp
    rw [h1, h2, List.append_nil]
  have hdel : deleteFollow { db with
        follows := db.follows ++ [⟨a, b⟩],
        profiles := increment_counter
          (increment_counter db.profiles CounterCol.following a)
          CounterCol.followers b } a b
      = { db with
          profiles := decrement_counter (decrement_counter
            (increment_counter
              (increment_counter db.profiles CounterCol.following a)
              CounterCol.followers b) CounterCol.following a)
            CounterCol.followers b } := by
    unfold deleteFollow
    rw [if_pos hany]
    simp only [hfilter]
  refine ⟨{ db with
            follows := db.follows ++ [⟨a, b⟩],
            profiles := increment_counter
              (increment_counter db.profiles CounterCol.following a)
              CounterCol.followers b }, ?_, ?_, ?_, ?_, ?_, ?_, ?_⟩
  · unfold insertFollow
    rw [if_pos ⟨by rw [ha]; rfl, by rw [hb]; rfl⟩, if_neg (by simp [hnew])]
  · show (findProfile (increment_counter (increment_counter db.profiles
      CounterCol.following a) CounterCol.followers b) a).map _ = _
    rw [findProfile_increment_counter, findProfile_increment_counter, ha]
    by_cases h : a = b <;>
      simp [haid, h, setCounter, getCounter, setCounter_id]
  · show (findProfile (increment_counter (increment_counter db.profiles
      CounterCol.following a) CounterCol.followers b) b).map _ = _
    rw [findProfile_increment_counter, findProfile_increment_counter, hb]
    by_cases h : pb.id = a
    · have hab : a = b := by rw [← h, hbid]
      simp [h, hbid, hab, setCounter, getCounter, setCounter_id]
    · have hba : ¬ b = a := fun hh => h (by rw [hbid, hh])
      simp [h, hbid, hba, setCounter, getCounter, setCounter_id]
  · rw [hdel]
    show (findProfile (decrement_counter (decrement_counter
      (increment_counter (increment_counter db.profiles
        CounterCol.following a) CounterCol.followers b)
      CounterCol.following a) CounterCol.followers b) a).map _ = _
    rw [findProfile_decrement_counter, findProfile_decrement_counter,
      findProfile_increment_counter, findProfile_increment_counter, ha]
    by_cases h : a = b <;>
      simp [haid, h, setCounter, getCounter, setCounter_id,
        max_eq_right hfa]
  · rw [hdel]
    show (findProfile (decrement_counter (decrement_counter
      (increment_counter (increment_counter db.profiles
        CounterCol.following a) CounterCol.followers b)
      CounterCol.following a) CounterCol.followers b) b).map _ = _
    rw [findProfile_decrement_counter, findProfile_decrement_counter,
      findProfile_increment_counter, findProfile_increment_counter, hb]
    by_cases h : pb.id = a
    · have hab : a = b := by rw [← h, hbid]
      simp [h, hbid, hab, setCounter, getCounter, setCounter_id,
        max_eq_right hfb]
    · have hba : ¬ b = a := fun hh => h (by rw [hbid, hh])
      simp [h, hbid, hba, setCounter, getCounter, setCounter_id,
        max_eq_right hfb]
  · rw [hdel]
    unfold deleteFollow
    rw [if_neg (by simp [hnew])]
  · intro l c i q hq hqi
    unfold decrement_counter at hq
    rcases List.mem_map.mp hq with ⟨p, hp, rfl⟩
    by_cases h : p.id = i
    · simp only [if_pos h, getCounter_setCounter]
      omega
    · rw [if_neg h] at hqi
      exact absurd hqi h


/-- Witness for `follow_counter_roundtrip`: profiles 1 and 2 with zero
counters and no edges. -/
theorem follow_counter_roundtrip_witness :
    ∃ db1, insertFollow exFollowDB 1 2 = some db1 ∧
      followingOf db1 1 = some ((0 : Int) + 1) ∧
      followersOf db1 2 = some ((0 : Int) + 1) ∧
      followingOf (deleteFollow db1 1 2) 1 = some 0 ∧
      followersOf (deleteFollow db1 1 2) 2 = some 0 ∧
      deleteFollow (deleteFollow db1 1 2) 1 2 = deleteFollow db1 1 2 ∧
      (∀ (l : List Profile) (c : CounterCol) (i : Nat),
        ∀ q ∈ decrement_counter l c i, q.id = i → 0 ≤ getCounter q c) :=
  follow_counter_roundtrip exFollowDB 1 2 ⟨1, 0, 0, 0⟩ ⟨2, 0, 0, 0⟩ rfl rfl
    (by decide) (by decide) rfl

/-- C4 (amended): a second Like by the same (user, post) pair is rejected by
the uniqueness constraint and adds no row; the first Like adds exactly one
row; and the post's `likes_count` column is unchanged by the Like insert (no
trigger maintains it). -/
theorem duplicate_like_rejected (db db1 : SocialDB) (pid uid : Nat)
    (h : insertLike db pid uid = some db1) :
    insertLike db1 pid uid = none ∧
    likeRowCount db1 pid = likeRowCount db pid + 1 ∧
    likesCountCol db1 pid = likesCountCol db pid := by
  unfold insertLike at h
  by_cases hfk : (findPost db.posts pid).isSome
      ∧ (findProfile db.profiles uid).isSome
  · rw [if_pos hfk] at h
    by_cases hdup : db.post_likes.any
        (fun l => l.post_id == pid && l.user_id == uid) = true
    · simp [hdup] at h
    · rw [if_neg (by simpa using hdup)] at h
      have hdb1 := (Option.some.inj h).symm
      subst hdb1
      refine ⟨?_, ?_, ?_⟩
      · unfold insertLike
        rw [if_pos ⟨by rw [(update_engagement_preserves db.posts pid pid).1]
                       ; exact hfk.1,
                    hfk.2⟩]
        rw [if_pos (by simp)]
      · simp [likeRowCount, List.filter_append]
      · exact (update_engagement_preserves db.posts pid pid).2
  · rw [if_neg hfk] at h
    exact absurd h (by simp)

/-- Witness for `duplicate_like_rejected`: user 1's Like on post 10 in the
fresh state. -/
theorem duplicate_like_rejected_witness :
    insertLike exDB1 10 1 = none ∧
    likeRowCount exDB1 10 = likeRowCount exDB0 10 + 1 ∧
    likesCountCol exDB1 10 = likesCountCol exDB0 10 :=
  duplicate_like_rejected exDB0 exDB1 10 1 rfl

/-- Witness for `duplicate_free_purchases`: user 1 claims free pack 7 twice
starting from an empty purchase table. -/
theorem duplicate_free_purchases_witness :
    ∃ r, handlePurchase (some 1) ⟨7, 0, false⟩ = .freeClaim r ∧
      r.user_id = 1 ∧ r.pack_id = (⟨7, 0, false⟩ : StorePack).id ∧
      r.amount = 0 ∧ r.payment_id = some "free_download" ∧
      purchaseCountFor (insertPurchase (insertPurchase [] r) r) 1
          (⟨7, 0, false⟩ : StorePack).id =
        purchaseCountFor [] 1 (⟨7, 0, false⟩ : StorePack).id + 2 :=
  duplicate_free_purchases [] 1 ⟨7, 0, false⟩ rfl rfl

end Lonix
